import Mathlib

/-
Verification of the experiment execution engine of the ebilab repository.

The definitions below are a shallow embedding of the engine code:
  - src/ebilab/core/data_saver.py : class ExperimentDataSaver
  - src/ebilab/core/service.py    : class ExperimentService
      (start_experiment, stop_experiment, shutdown, sync,
       _run_steps, _run_lifecycle, _cleanup_data_saving, get_last_error)

Modelling conventions:
  - Monotonic-clock readings (time.perf_counter) and wall-clock stamps are
    abstract inputs of each event; clock readings are modelled as integers
    (abstract ticks).  No claim depends on fractional time, only on
    subtraction, ordering with respect to 0 and the sentinel -1.
  - Python dicts holding a row are association lists preserving insertion
    order; dict.get(k, "") and dict assignment are rowGet / rowSet.
  - Exceptions are the inductive type Exc; asyncio.CancelledError is kept
    apart (BodyOutcome.cancelled) because the lifecycle has a dedicated
    except clause for it.
  - Fallible I/O (opening the CSV file, the underlying csv write) is driven
    by explicit Boolean fault flags: a flag set to true means the
    corresponding Python call would have raised.
  - Logging calls only write log lines; they are not modelled.
-/

/-- Scalar cell values of a row: strings or numbers.  The engine writes the
empty string for a column absent from a row. -/
inductive Val where
  | str (s : String)
  | num (q : ℤ)
deriving DecidableEq, Repr

/-- A Row is an insertion-ordered mapping from column name to value,
mirroring the Python dict yielded by the procedure. -/
abbrev Row : Type := List (String × Val)

/-- Mirrors Python dict.get(k, ""): the value stored at key k, or the empty
string when the key is absent (data_saver.py, write_data). -/
def rowGet (r : Row) (k : String) : Val :=
  match r.find? (fun p => p.1 == k) with
  | some p => p.2
  | none => .str ""

/-- Mirrors Python dict assignment d[k] = v: replaces the value at an
existing key in place, appends a new key at the end. -/
def rowSet : Row → String → Val → Row
  | [], k, v => [(k, v)]
  | (k', v') :: rest, k, v =>
    if k' = k then (k, v) :: rest else (k', v') :: rowSet rest k v

/-- True when the key is present in the row. -/
def rowHasKey (r : Row) (k : String) : Bool :=
  (r.find? (fun p => p.1 == k)).isSome

/-- ExperimentStatus from service.py: the five run states. -/
inductive ExperimentStatus where
  | IDLE
  | RUNNING
  | STOPPING
  | FINISHED
  | ERROR
deriving DecidableEq, Repr

/-- Python exceptions, as far as the engine distinguishes them.
runtimeError stands for RuntimeError(msg); userError stands for an
arbitrary exception raised by user code. -/
inductive Exc where
  | runtimeError (msg : String)
  | userError (n : ℕ)
deriving DecidableEq, Repr

/-! ## ExperimentDataSaver (data_saver.py)

State of one saver object: its declared columns, whether the CSV
file/writer pair is open (csv_file and csv_writer are set together in the
source), and the rows physically on disk (each write flushes, so the file
contents track the writes exactly). -/

structure ExperimentDataSaver where
  columns : List String
  csvOpen : Bool
  fileContents : List (List Val)
deriving DecidableEq, Repr

/-- ExperimentDataSaver.__init__(experiment_name, columns): fresh saver,
file not yet open.  Path preparation is not modelled. -/
def mkSaver (columns : List String) : ExperimentDataSaver :=
  { columns := columns, csvOpen := false, fileContents := [] }

/-- The header list built in start_writing and write_data:
headers = ["t", "sync_t", "time"] + self.columns. -/
def csvHeaders (columns : List String) : List String :=
  ["t", "sync_t", "time"] ++ columns

/-- The body of the for-loop in write_data: one value per header, with
data.get(header, "") substituting the empty string for absent keys. -/
def serializeRow (columns : List String) (data : Row) : List Val :=
  (csvHeaders columns).map (fun h => rowGet data h)

/-- ExperimentDataSaver.start_writing.  A second call while the file is
open is a warning no-op.  Opening with mode "w" truncates, then the header
row is written and flushed.  If the open (or the header write) raises, the
file is closed again and the exception is re-raised. -/
def start_writing (sv : ExperimentDataSaver) (openFault : Bool) :
    Except Exc ExperimentDataSaver :=
  if sv.csvOpen then .ok sv
  else if openFault then .error (.runtimeError "Failed to open CSV file for writing")
  else .ok { sv with
    csvOpen := true,
    fileContents := [(csvHeaders sv.columns).map Val.str] }

/-- ExperimentDataSaver.write_data.  When the writer is not initialized it
logs and returns.  Otherwise the whole serialize-write-flush body sits in a
try whose except clause catches EVERY exception and only logs it, so
write_data never raises: its type is total.  A writeFault = true models the
underlying csv write raising; the row is then lost and swallowed. -/
def write_data (sv : ExperimentDataSaver) (data : Row) (writeFault : Bool) :
    ExperimentDataSaver :=
  if sv.csvOpen = false then sv
  else if writeFault then sv
  else { sv with fileContents := sv.fileContents ++ [serializeRow sv.columns data] }

/-- ExperimentDataSaver.stop_writing: closes the file handle; the contents
already flushed stay on disk. -/
def stop_writing (sv : ExperimentDataSaver) : ExperimentDataSaver :=
  { sv with csvOpen := false }

/-! ## Row stamping (_run_steps, service.py lines 295-300) -/

/-- The conditional expression on line 299 of service.py:
current_time - self._last_sync_time if self._last_sync_time else -1.
Python truthiness: None and 0.0 are both falsy, so a last-sync value of
exactly 0 yields the sentinel, like no sync at all. -/
def sync_t_value (last_sync_time : Option ℤ) (now : ℤ) : ℤ :=
  match last_sync_time with
  | some ts => if ts = 0 then -1 else now - ts
  | none => -1

/-- Lines 296-300 of service.py: copy the dict and add the three derived
columns, in source order t, sync_t, time.  The wall-clock ISO string is an
abstract input read at the same instant. -/
def stampRow (data : Row) (now : ℤ) (wall : String) (start_time : ℤ)
    (last_sync_time : Option ℤ) : Row :=
  let d := rowSet data "t" (.num (now - start_time))
  let d := rowSet d "sync_t" (.num (sync_t_value last_sync_time now))
  rowSet d "time" (.str wall)

/-! ## The step loop and in-run events (service.py _run_steps, sync,
stop_experiment, start_experiment) -/

/-- Events interleaved with the step loop of one run, in schedule order:
  - yield: the procedure generator yields one row; t and wall are the two
    clocks read if the row is stamped, writeFault drives the csv write.
  - syncCall: the caller invokes sync() reading clock t.
  - stopCall: the caller invokes stop_experiment().
  - startCall: the caller invokes start_experiment while this run's thread
    is active; both rejection paths (status RUNNING, or thread active)
    return after writing only self.debug_mode. -/
inductive RunEvent where
  | yield (t : ℤ) (wall : String) (row : Row) (writeFault : Bool)
  | syncCall (t : ℤ)
  | stopCall
  | startCall (debug : Bool)
deriving DecidableEq, Repr

/-- True exactly for syncCall events. -/
def RunEvent.isSync : RunEvent → Bool
  | .syncCall _ => true
  | _ => false

/-- Mutable engine state visible to one run, restricted to the fields the
lifecycle touches. -/
structure RunState where
  status : ExperimentStatus
  debug_mode : Bool
  last_error : Option Exc
  last_sync_time : Option ℤ
  start_time : ℤ
  stop_event : Bool
  data_queue : List Row
  data_saver : Option ExperimentDataSaver
  broke : Bool
  raised : Option Exc
deriving DecidableEq, Repr

/-- One event against the run state.

syncCall is sync() in service.py: a warning no-op unless status is
RUNNING, otherwise it records now as _last_sync_time.

stopCall is stop_experiment(): no-op unless RUNNING, otherwise it sets
status STOPPING and sets the stop event (the task cancellation it also
requests surfaces as BodyOutcome.cancelled).

startCall is start_experiment() arriving mid-run: self.debug_mode is
assigned first; then either status == RUNNING rejects, or
_start_experiment_thread finds _experiment_active true and rejects; both
paths leave every other field untouched.

yield is one iteration of the async-for in _run_steps: nothing happens if
the loop already exited (broke or raised); the stop_event check breaks the
loop; otherwise the row is stamped, persisted when not in debug mode
(raising RuntimeError when data_saver is None, else calling write_data,
which never raises), and finally put on the data queue. -/
def stepEvent (ev : RunEvent) (s : RunState) : RunState :=
  match ev with
  | .syncCall t =>
      if s.status = .RUNNING then { s with last_sync_time := some t } else s
  | .stopCall =>
      if s.status = .RUNNING then
        { s with status := .STOPPING, stop_event := true }
      else s
  | .startCall d => { s with debug_mode := d }
  | .yield t wall row wf =>
      if s.broke ∨ s.raised.isSome then s
      else if s.stop_event then { s with broke := true }
      else
        let row' := stampRow row t wall s.start_time s.last_sync_time
        if s.debug_mode then
          { s with data_queue := s.data_queue ++ [row'] }
        else
          match s.data_saver with
          | none =>
              { s with raised := some (.runtimeError "Data saver is not initialized") }
          | some sv =>
              { s with
                data_saver := some (write_data sv row' wf),
                data_queue := s.data_queue ++ [row'] }

/-- The step loop driven by a schedule of events. -/
def runSteps (evs : List RunEvent) (s : RunState) : RunState :=
  evs.foldl (fun st e => stepEvent e st) s

/-! ## The lifecycle (_run_lifecycle, service.py lines 318-370) -/

/-- How the try block of _run_lifecycle ends. -/
inductive BodyOutcome where
  | ok
  | cancelled
  | raised (e : Exc)
deriving DecidableEq, Repr

/-- All inputs of one run of _run_lifecycle:
  - debug_mode and data_saver as prepared by start_experiment (the saver is
    None in debug mode),
  - start_time: the perf_counter reading at lifecycle start,
  - setupFault: some e when exp.setup() raises e,
  - events: the in-run schedule processed by the step loop after a
    successful setup,
  - stepsFault: some e when the generator itself raises e after yielding
    all its rows (only reachable when the loop did not break first),
  - cancelled: a pending task cancellation delivered at the end of the body,
  - cleanupFault: some e when exp.cleanup() raises e. -/
structure LifecycleInput where
  debug_mode : Bool
  start_time : ℤ
  data_saver : Option ExperimentDataSaver
  setupFault : Option Exc
  events : List RunEvent
  stepsFault : Option Exc
  cancelled : Bool
  cleanupFault : Option Exc
deriving DecidableEq, Repr

/-- The run state at the top of the try block: status RUNNING was set by
start_experiment, _last_sync_time is reset to None, the queue is fresh and
the stop event is clear. -/
def initialRunState (inp : LifecycleInput) : RunState :=
  { status := .RUNNING,
    debug_mode := inp.debug_mode,
    last_error := none,
    last_sync_time := none,
    start_time := inp.start_time,
    stop_event := false,
    data_queue := [],
    data_saver := inp.data_saver,
    broke := false,
    raised := none }

/-- State after the try block: if setup raised, the loop never ran. -/
def runBodyState (inp : LifecycleInput) : RunState :=
  match inp.setupFault with
  | some _ => initialRunState inp
  | none => runSteps inp.events (initialRunState inp)

/-- Which except clause (if any) the try block reaches: an exception from
setup, a RuntimeError escaping the step loop, or an exception from the
generator, are all caught by except Exception; a cancellation delivered
while the loop was still in flight is caught by except CancelledError. -/
def bodyOutcome (inp : LifecycleInput) : BodyOutcome :=
  match inp.setupFault with
  | some e => .raised e
  | none =>
    let s := runSteps inp.events (initialRunState inp)
    match s.raised with
    | some e => .raised e
    | none =>
      match inp.stepsFault with
      | some e =>
          if s.broke then (if inp.cancelled then .cancelled else .ok)
          else .raised e
      | none => if inp.cancelled then .cancelled else .ok

/-- State after the except clauses ran (service.py lines 339-348):
CancelledError is treated as a normal interruption; any other exception is
stored as the last error and the status is set to ERROR. -/
def postExceptState (inp : LifecycleInput) : RunState :=
  match bodyOutcome inp with
  | .raised e => { runBodyState inp with last_error := some e, status := .ERROR }
  | _ => runBodyState inp

/-- Observable phases of one lifecycle, for counting invocations. -/
inductive Phase where
  | setupDone
  | stepsDone
  | caughtCancel
  | caughtError
  | teardown
  | finalized
deriving DecidableEq, Repr

/-- The phases reached before the teardown call in the finally block. -/
def tracePrefixPhases (inp : LifecycleInput) : List Phase :=
  (match inp.setupFault with
   | some _ => []
   | none => [.setupDone, .stepsDone]) ++
  (match bodyOutcome inp with
   | .raised _ => [.caughtError]
   | .cancelled => [.caughtCancel]
   | .ok => [])

/-- Result of one lifecycle: the final engine state, the exception (if
any) escaping the coroutine into its never-read Future, the file contents
on disk at the end, and the phase trace. -/
structure LifecycleResult where
  state : RunState
  escaped : Option Exc
  file : List (List Val)
  trace : List Phase
deriving DecidableEq, Repr

/-- The finally block of _run_lifecycle (service.py lines 349-370).
await exp.cleanup() runs unconditionally and is NOT wrapped in a try: when
it raises, the exception escapes the coroutine, _cleanup_data_saving never
runs and the FINISHED transition never happens.  When cleanup returns,
_cleanup_data_saving stops the writer and clears data_saver, and status
becomes FINISHED unless it is already ERROR. -/
def run_lifecycle (inp : LifecycleInput) : LifecycleResult :=
  let s2 := postExceptState inp
  let fileNow := match s2.data_saver with
    | some sv => sv.fileContents
    | none => []
  match inp.cleanupFault with
  | some ex =>
      { state := s2,
        escaped := some ex,
        file := fileNow,
        trace := tracePrefixPhases inp ++ [.teardown] }
  | none =>
      let s3 := { s2 with data_saver := none }
      let s4 := if s3.status ≠ .ERROR then { s3 with status := .FINISHED } else s3
      { state := s4,
        escaped := none,
        file := fileNow,
        trace := tracePrefixPhases inp ++ [.teardown, .finalized] }

/-- ExperimentService.get_last_error, restricted to the run state. -/
def get_last_error (s : RunState) : Option Exc :=
  s.last_error

/-! ## Caller-side service state machine (start_experiment,
stop_experiment, shutdown; service.py lines 66-114 and 155-262) -/

/-- The service fields the caller-side operations read and write.
stop_event is None before the first run (no Event object yet), some flag
afterwards.  run_count counts the Runs created so far (each acceptance of
start_experiment makes a fresh thread, queue and stop event). -/
structure ServiceState where
  status : ExperimentStatus
  debug_mode : Bool
  experiment_active : Bool
  last_error : Option Exc
  stop_event : Option Bool
  data_saver_present : Bool
  run_count : ℕ
deriving DecidableEq, Repr

/-- ExperimentService.__init__: IDLE, nothing allocated. -/
def initServiceState : ServiceState :=
  { status := .IDLE,
    debug_mode := false,
    experiment_active := false,
    last_error := none,
    stop_event := none,
    data_saver_present := false,
    run_count := 0 }

/-- ExperimentService.start_experiment (service.py lines 155-206), in
source order: self.debug_mode is assigned FIRST; then status == RUNNING
rejects with a warning; then _start_experiment_thread rejects when
_experiment_active is already true; otherwise the thread starts
(_experiment_active becomes true), the previous error is cleared, status
becomes RUNNING, a fresh queue and a fresh clear stop event are created,
the data saver is prepared unless in debug mode, and the lifecycle is
scheduled.  Returns the new state and whether a Run was created. -/
def start_experiment (debug : Bool) (s : ServiceState) : ServiceState × Bool :=
  let s := { s with debug_mode := debug }
  if s.status = .RUNNING then (s, false)
  else if s.experiment_active then (s, false)
  else
    ({ s with
        experiment_active := true,
        last_error := none,
        status := .RUNNING,
        stop_event := some false,
        data_saver_present := !debug,
        run_count := s.run_count + 1 }, true)

/-- ExperimentService.stop_experiment (service.py lines 249-262): no-op
unless RUNNING; otherwise status becomes STOPPING and the stop event is
set (the steps-task cancellation is also requested). -/
def service_stop_experiment (s : ServiceState) : ServiceState :=
  if s.status = .RUNNING then
    { s with status := .STOPPING, stop_event := some true }
  else s

/-- ExperimentService.shutdown (service.py lines 70-75) together with
_stop_current_experiment and _stop_experiment_thread (lines 95-114): when
the experiment thread is active, stop the experiment if RUNNING, then stop
the thread (its event loop halts, so the scheduled lifecycle never
progresses further) and clear _experiment_active. -/
def service_shutdown (s : ServiceState) : ServiceState :=
  if s.experiment_active then
    let s := if s.status = .RUNNING then service_stop_experiment s else s
    { s with experiment_active := false }
  else s

/-! ## Basic lemmas about rows and stamping -/

theorem rowGet_rowSet_same (r : Row) (k : String) (v : Val) :
    rowGet (rowSet r k v) k = v := by
  induction r with
  | nil => simp [rowSet, rowGet]
  | cons p rest ih =>
    obtain ⟨k', v'⟩ := p
    by_cases h : k' = k
    · simp [rowSet, h, rowGet]
    · simp only [rowSet, if_neg h]
      simpa [rowGet, List.find?_cons, h] using ih

theorem rowGet_rowSet_ne (r : Row) (k k' : String) (v : Val)
    (h : k ≠ k') : rowGet (rowSet r k v) k' = rowGet r k' := by
  induction r with
  | nil => simp [rowSet, rowGet, h]
  | cons p rest ih =>
    obtain ⟨k1, v1⟩ := p
    by_cases hk : k1 = k
    · subst hk
      simp [rowSet, rowGet, h]
    · simp only [rowSet, if_neg hk]
      by_cases hk' : k1 = k'
      · simp [rowGet, hk']
      · simpa [rowGet, hk'] using ih

theorem rowGet_absent (r : Row) (k : String) (h : rowHasKey r k = false) :
    rowGet r k = .str "" := by
  unfold rowHasKey at h
  unfold rowGet
  cases hf : r.find? (fun p => p.1 == k) with
  | none => rfl
  | some p => rw [hf] at h; simp at h

theorem stampRow_get_t (data : Row) (now : ℤ) (wall : String) (st : ℤ)
    (ls : Option ℤ) : rowGet (stampRow data now wall st ls) "t" = .num (now - st) := by
  unfold stampRow
  rw [rowGet_rowSet_ne _ _ _ _ (by decide), rowGet_rowSet_ne _ _ _ _ (by decide),
    rowGet_rowSet_same]

theorem stampRow_get_sync_t (data : Row) (now : ℤ) (wall : String) (st : ℤ)
    (ls : Option ℤ) :
    rowGet (stampRow data now wall st ls) "sync_t" = .num (sync_t_value ls now) := by
  unfold stampRow
  rw [rowGet_rowSet_ne _ _ _ _ (by decide), rowGet_rowSet_same]

theorem stampRow_get_time (data : Row) (now : ℤ) (wall : String) (st : ℤ)
    (ls : Option ℤ) : rowGet (stampRow data now wall st ls) "time" = .str wall := by
  unfold stampRow
  rw [rowGet_rowSet_same]

/-! ## Structural lemmas about the step loop -/

theorem runSteps_nil (s : RunState) : runSteps [] s = s := rfl

theorem runSteps_cons (e : RunEvent) (evs : List RunEvent) (s : RunState) :
    runSteps (e :: evs) s = runSteps evs (stepEvent e s) := rfl

theorem stepEvent_start_time (e : RunEvent) (s : RunState) :
    (stepEvent e s).start_time = s.start_time := by
  cases e with
  | yield t wall row wf =>
    simp only [stepEvent]
    split
    · rfl
    · split
      · rfl
      · split
        · rfl
        · split <;> rfl
  | syncCall t => simp only [stepEvent]; split <;> rfl
  | stopCall => simp only [stepEvent]; split <;> rfl
  | startCall d => rfl

theorem stepEvent_status_cases (e : RunEvent) (s : RunState)
    (h : s.status = .RUNNING ∨ s.status = .STOPPING) :
    (stepEvent e s).status = .RUNNING ∨ (stepEvent e s).status = .STOPPING := by
  cases e with
  | yield t wall row wf =>
    simp only [stepEvent]
    split
    · exact h
    · split
      · exact h
      · split
        · exact h
        · split
          · exact h
          · exact h
  | syncCall t => simp only [stepEvent]; split <;> exact h
  | stopCall =>
    simp only [stepEvent]
    split
    · right; rfl
    · exact h
  | startCall d => exact h

theorem runSteps_status_cases (evs : List RunEvent) (s : RunState)
    (h : s.status = .RUNNING ∨ s.status = .STOPPING) :
    (runSteps evs s).status = .RUNNING ∨ (runSteps evs s).status = .STOPPING := by
  induction evs generalizing s with
  | nil => exact h
  | cons e rest ih =>
    rw [runSteps_cons]
    exact ih _ (stepEvent_status_cases e s h)

theorem stepEvent_last_sync_of_not_sync (e : RunEvent) (s : RunState)
    (h : e.isSync = false) :
    (stepEvent e s).last_sync_time = s.last_sync_time := by
  cases e with
  | yield t wall row wf =>
    simp only [stepEvent]
    split
    · rfl
    · split
      · rfl
      · split
        · rfl
        · split <;> rfl
  | syncCall t => simp [RunEvent.isSync] at h
  | stopCall => simp only [stepEvent]; split <;> rfl
  | startCall d => rfl

/-- Any single non-sync event either leaves the data queue unchanged or
appends exactly one row stamped with the current start and last-sync
times. -/
theorem stepEvent_queue_shape (e : RunEvent) (s : RunState)
    (h : e.isSync = false) :
    (stepEvent e s).data_queue = s.data_queue ∨
    ∃ t w d, (stepEvent e s).data_queue =
      s.data_queue ++ [stampRow d t w s.start_time s.last_sync_time] := by
  cases e with
  | yield t wall row wf =>
    simp only [stepEvent]
    split
    · left; rfl
    · split
      · left; rfl
      · split
        · right; exact ⟨t, wall, row, rfl⟩
        · split
          · left; rfl
          · right; exact ⟨t, wall, row, rfl⟩
  | syncCall t => simp [RunEvent.isSync] at h
  | stopCall => simp only [stepEvent]; split <;> left <;> rfl
  | startCall d => left; rfl

/-- Over a schedule without sync calls, the last-sync reference is
unchanged and every queued row is either an old one or a row stamped with
the initial start and last-sync times. -/
theorem runSteps_noSync_queue (evs : List RunEvent) (s : RunState)
    (hs : ∀ e ∈ evs, e.isSync = false) :
    (runSteps evs s).last_sync_time = s.last_sync_time ∧
    (runSteps evs s).start_time = s.start_time ∧
    ∀ r ∈ (runSteps evs s).data_queue,
      r ∈ s.data_queue ∨
      ∃ t w d, r = stampRow d t w s.start_time s.last_sync_time := by
  induction evs generalizing s with
  | nil => exact ⟨rfl, rfl, fun r hr => Or.inl hr⟩
  | cons e rest ih =>
    have he : e.isSync = false := hs e (by simp)
    have hrest : ∀ e' ∈ rest, e'.isSync = false := fun e' h' => hs e' (by simp [h'])
    obtain ⟨ih1, ih2, ih3⟩ := ih (stepEvent e s) hrest
    rw [runSteps_cons]
    refine ⟨?_, ?_, ?_⟩
    · rw [ih1, stepEvent_last_sync_of_not_sync e s he]
    · rw [ih2, stepEvent_start_time e s]
    · intro r hr
      rcases ih3 r hr with hold | ⟨t, w, d, hstamp⟩
      · rcases stepEvent_queue_shape e s he with hq | ⟨t, w, d, hq⟩
        · left; rw [hq] at hold; exact hold
        · rw [hq] at hold
          rcases List.mem_append.mp hold with h1 | h2
          · left; exact h1
          · right
            refine ⟨t, w, d, ?_⟩
            simpa using h2
      · right
        refine ⟨t, w, d, ?_⟩
        rw [hstamp, stepEvent_start_time e s, stepEvent_last_sync_of_not_sync e s he]

/-- Once the stop event is set and the status is STOPPING, no later event
adds a row, touches the saver, raises, or changes status or flag: the run
drains without effect.  Mirrors the break at the top of the loop body in
_run_steps and the RUNNING guards in sync() and stop_experiment(). -/
theorem runSteps_stopped (evs : List RunEvent) (s : RunState)
    (h1 : s.stop_event = true) (h2 : s.status = .STOPPING) :
    (runSteps evs s).data_queue = s.data_queue ∧
    (runSteps evs s).data_saver = s.data_saver ∧
    (runSteps evs s).status = .STOPPING ∧
    (runSteps evs s).stop_event = true ∧
    (runSteps evs s).raised = s.raised := by
  induction evs generalizing s with
  | nil => exact ⟨rfl, rfl, h2, h1, rfl⟩
  | cons e rest ih =>
    rw [runSteps_cons]
    have hstep : (stepEvent e s).data_queue = s.data_queue ∧
        (stepEvent e s).data_saver = s.data_saver ∧
        (stepEvent e s).status = .STOPPING ∧
        (stepEvent e s).stop_event = true ∧
        (stepEvent e s).raised = s.raised := by
      cases e with
      | yield t wall row wf =>
        have hy : stepEvent (RunEvent.yield t wall row wf) s = s ∨
            stepEvent (RunEvent.yield t wall row wf) s = { s with broke := true } := by
          by_cases hbr : (s.broke = true ∨ s.raised.isSome = true)
          · left
            simp only [stepEvent, if_pos hbr]
          · right
            simp only [stepEvent, if_neg hbr, h1]
            rfl
        rcases hy with hy | hy
        · rw [hy]
          exact ⟨rfl, rfl, h2, h1, rfl⟩
        · rw [hy]
          exact ⟨rfl, rfl, h2, h1, rfl⟩
      | syncCall t =>
        simp only [stepEvent, h2]
        exact ⟨rfl, rfl, h2, h1, rfl⟩
      | stopCall =>
        simp only [stepEvent, h2]
        exact ⟨rfl, rfl, h2, h1, rfl⟩
      | startCall d => exact ⟨rfl, rfl, h2, h1, rfl⟩
    obtain ⟨q1, v1, s1, e1, r1⟩ := hstep
    obtain ⟨q2, v2, s2, e2, r2⟩ := ih (stepEvent e s) e1 s1
    exact ⟨q2.trans q1, v2.trans v1, s2, e2, r2.trans r1⟩

/-! ## Characterization of a fault-free stretch of pure yields -/

/-- The data of one yield of the procedure generator. -/
structure YieldIn where
  t : ℤ
  wall : String
  row : Row
  writeFault : Bool
deriving DecidableEq, Repr

/-- The run event of one yield. -/
def YieldIn.toEvent (y : YieldIn) : RunEvent :=
  .yield y.t y.wall y.row y.writeFault

/-- The stamped row the engine builds for one yield. -/
def stampOf (st : ℤ) (ls : Option ℤ) (y : YieldIn) : Row :=
  stampRow y.row y.t y.wall st ls

/-- The serialized form of one yield, given the run's timing context. -/
def yieldSerialized (cols : List String) (st : ℤ) (ls : Option ℤ) (y : YieldIn) : List Val :=
  serializeRow cols (stampOf st ls y)

/-- Processing a run of fault-free yields from a healthy non-debug state
appends exactly the stamped rows to the queue, in order, and exactly their
serializations to the file, in the same order; nothing else changes. -/
theorem runSteps_yields (ys : List YieldIn) (s : RunState) (sv : ExperimentDataSaver)
    (hb : s.broke = false) (hr : s.raised = none) (hse : s.stop_event = false)
    (hd : s.debug_mode = false) (hsv : s.data_saver = some sv) (ho : sv.csvOpen = true)
    (hwf : ∀ y ∈ ys, y.writeFault = false) :
    runSteps (ys.map YieldIn.toEvent) s =
      { s with
        data_queue := s.data_queue ++ ys.map (stampOf s.start_time s.last_sync_time),
        data_saver := some { sv with fileContents := sv.fileContents ++ ys.map (yieldSerialized sv.columns s.start_time s.last_sync_time) } } := by
  induction ys generalizing s sv with
  | nil =>
    simp only [List.map_nil, List.append_nil, runSteps_nil]
    rw [← hsv]
  | cons y rest ih =>
    have hwy : y.writeFault = false := hwf y (by simp)
    have hwrest : ∀ y' ∈ rest, y'.writeFault = false := fun y' h' => hwf y' (by simp [h'])
    rw [List.map_cons, runSteps_cons]
    have hstep : stepEvent y.toEvent s =
        { s with
          data_queue := s.data_queue ++ [stampOf s.start_time s.last_sync_time y],
          data_saver := some (write_data sv (stampOf s.start_time s.last_sync_time y) false) } := by
      have hbr : ¬(s.broke = true ∨ s.raised.isSome = true) := by
        simp [hb, hr]
      simp only [YieldIn.toEvent, stepEvent, if_neg hbr, hse, hd, hsv, hwy, stampOf]
      rfl
    have hwd : write_data sv (stampOf s.start_time s.last_sync_time y) false =
        { sv with fileContents := sv.fileContents ++ [yieldSerialized sv.columns s.start_time s.last_sync_time y] } := by
      simp [write_data, ho, yieldSerialized]
    rw [hstep, hwd]
    have hih := ih
      { s with
        data_queue := s.data_queue ++ [stampOf s.start_time s.last_sync_time y],
        data_saver := some { sv with fileContents := sv.fileContents ++ [yieldSerialized sv.columns s.start_time s.last_sync_time y] } }
      { sv with fileContents := sv.fileContents ++ [yieldSerialized sv.columns s.start_time s.last_sync_time y] }
      hb hr hse hd rfl ho hwrest
    rw [hih]
    simp [List.append_assoc, yieldSerialized]

/-! ## Lifecycle-level helper lemmas -/

theorem runBodyState_status_cases (inp : LifecycleInput) :
    (runBodyState inp).status = .RUNNING ∨ (runBodyState inp).status = .STOPPING := by
  unfold runBodyState
  rcases inp.setupFault with _ | e
  · exact runSteps_status_cases inp.events (initialRunState inp) (Or.inl rfl)
  · exact Or.inl rfl

theorem postExceptState_status_ne_finished (inp : LifecycleInput) :
    (postExceptState inp).status ≠ .FINISHED := by
  unfold postExceptState
  rcases bodyOutcome inp with _ | _ | e
  · rcases runBodyState_status_cases inp with h | h <;> simp [h]
  · rcases runBodyState_status_cases inp with h | h <;> simp [h]
  · simp

theorem tracePrefix_no_teardown (inp : LifecycleInput) :
    (tracePrefixPhases inp).count Phase.teardown = 0 := by
  unfold tracePrefixPhases
  rcases inp.setupFault with _ | e <;>
    rcases bodyOutcome inp with _ | _ | e' <;>
    simp [List.count_append]

/-! ## Claim C9 -/

/-- Claim C9 (confirmed): for every run, teardown (exp.cleanup) is invoked
exactly once, whatever the outcome: setup or step production completing
normally, raising, or being cancelled, and whether or not cleanup itself
raises, the finally block of the lifecycle reaches the teardown phase
exactly once; no terminal transition skips it. -/
theorem c9_teardown_exactly_once (inp : LifecycleInput) :
    ((run_lifecycle inp).trace).count Phase.teardown = 1 := by
  unfold run_lifecycle
  rcases inp.cleanupFault with _ | ex <;>
    simp [List.count_append, tracePrefix_no_teardown]

/-! ## Claim C3 (corrected) -/

/-- Claim C3, original form, is FALSE on the code: this run of the public
API starts an experiment, shuts the service down mid-run (which flips
status to STOPPING and releases the experiment thread), and then a second
start_experiment call arrives with status still STOPPING - yet it is
accepted and creates a second Run, because start_experiment only rejects
on status RUNNING or on an active thread, never on STOPPING itself. -/
theorem c3_counterexample :
    (service_shutdown (start_experiment false initServiceState).1).status =
      ExperimentStatus.STOPPING
    ∧ (start_experiment false
        (service_shutdown (start_experiment false initServiceState).1)).2 = true
    ∧ (start_experiment false
        (service_shutdown (start_experiment false initServiceState).1)).1.status =
      ExperimentStatus.RUNNING
    ∧ (start_experiment false
        (service_shutdown (start_experiment false initServiceState).1)).1.run_count = 2 := by
  decide

/-- Claim C3 (amended): a start_experiment call is accepted, creating a
fresh Run (thread marked active, fresh clear stop flag, error reset,
status RUNNING, run count incremented), exactly when the status is not
RUNNING and the experiment thread is not active.  With stop() as the only
route into STOPPING the thread is still active there and the call is
rejected, as the claim says; but the status alone does not decide
acceptance: after shutdown() the status can be STOPPING with the thread
released, and a start call is then accepted.  A rejected call leaves every
field except debug_mode untouched and creates nothing. -/
theorem c3_amended_start_acceptance (s : ServiceState) (d : Bool) :
    ((start_experiment d s).2 = true ↔
      (s.status ≠ .RUNNING ∧ s.experiment_active = false))
    ∧ ((start_experiment d s).2 = true →
        (start_experiment d s).1 = { s with
          debug_mode := d,
          experiment_active := true,
          last_error := none,
          status := .RUNNING,
          stop_event := some false,
          data_saver_present := !d,
          run_count := s.run_count + 1 })
    ∧ ((start_experiment d s).2 = false →
        (start_experiment d s).1 = { s with debug_mode := d }) := by
  by_cases h1 : s.status = .RUNNING
  · simp [start_experiment, h1]
  · by_cases h2 : s.experiment_active = true
    · simp [start_experiment, h1, h2]
    · simp [start_experiment, h1, h2]

/-- Witness for c3_amended_start_acceptance at a concrete state: from the
initial IDLE state a start call is accepted. -/
theorem c3_amended_start_acceptance_witness :
    (start_experiment true initServiceState).2 = true
    ∧ (start_experiment true initServiceState).1 = { initServiceState with
        debug_mode := true,
        experiment_active := true,
        last_error := none,
        status := .RUNNING,
        stop_event := some false,
        data_saver_present := false,
        run_count := 1 } := by
  have h := c3_amended_start_acceptance initServiceState true
  have hacc : (start_experiment true initServiceState).2 = true :=
    h.1.mpr ⟨by decide, rfl⟩
  exact ⟨hacc, h.2.1 hacc⟩

/-! ## Claim C4 (confirmed) -/

/-- Claim C4 (confirmed): start_experiment assigns self.debug_mode BEFORE
the status check, so a call arriving while a Run is RUNNING, although
rejected without creating anything, still overwrites the engine's
debug_mode flag; and the step loop reads that flag again on every row, so
the flip decides whether each subsequent row of the active Run is
persisted: with debug_mode true a processed row is only queued (the saver
and hence the file stay untouched), with debug_mode false it is also
handed to write_data. -/
theorem c4_rejected_start_flips_debug_mode (s : ServiceState) (rs : RunState) (d : Bool)
    (hs : s.status = .RUNNING)
    (hb : rs.broke = false) (hr : rs.raised = none) (hse : rs.stop_event = false) :
    (start_experiment d s = ({ s with debug_mode := d }, false))
    ∧ (stepEvent (.startCall d) rs = { rs with debug_mode := d })
    ∧ (∀ t wall row wf,
        stepEvent (.yield t wall row wf) { rs with debug_mode := true } =
          { rs with
            debug_mode := true,
            data_queue := rs.data_queue ++ [stampRow row t wall rs.start_time rs.last_sync_time] })
    ∧ (∀ t wall row wf sv, rs.data_saver = some sv →
        stepEvent (.yield t wall row wf) { rs with debug_mode := false } =
          { rs with
            debug_mode := false,
            data_queue := rs.data_queue ++ [stampRow row t wall rs.start_time rs.last_sync_time],
            data_saver := some (write_data sv (stampRow row t wall rs.start_time rs.last_sync_time) wf) }) := by
  refine ⟨by simp [start_experiment, hs], rfl, ?_, ?_⟩
  · intro t wall row wf
    have hbr : ¬(rs.broke = true ∨ rs.raised.isSome = true) := by simp [hb, hr]
    simp only [stepEvent, if_neg hbr, hse]
    rfl
  · intro t wall row wf sv hsv
    have hbr : ¬(rs.broke = true ∨ rs.raised.isSome = true) := by simp [hb, hr]
    simp only [stepEvent, if_neg hbr, hse, hsv]
    rfl

/-- Witness for c4_rejected_start_flips_debug_mode at concrete states. -/
theorem c4_rejected_start_flips_debug_mode_witness :
    start_experiment true
        { initServiceState with status := .RUNNING, experiment_active := true } =
      ({ initServiceState with
          status := .RUNNING,
          experiment_active := true,
          debug_mode := true }, false) := by
  have h := c4_rejected_start_flips_debug_mode
    { initServiceState with status := .RUNNING, experiment_active := true }
    { status := .RUNNING, debug_mode := false, last_error := none,
      last_sync_time := none, start_time := 0, stop_event := false,
      data_queue := [], data_saver := none, broke := false, raised := none }
    true rfl rfl rfl rfl
  exact h.1

/-! ## Claim C5 (confirmed) -/

/-- Claim C5 (confirmed): the header row written by start_writing is
exactly the three derived columns t, sync_t, time followed by the declared
columns in declared order; and write_data serializes every row in that
same header order, substituting the empty string for any key absent from
the row.  write_data is a total function (the source catches every
exception inside it), so an absent key is never an error. -/
theorem c5_header_and_serialization (cols : List String) (data : Row)
    (sv : ExperimentDataSaver) (ho : sv.csvOpen = true) :
    (csvHeaders cols = ["t", "sync_t", "time"] ++ cols)
    ∧ (start_writing (mkSaver cols) false =
        .ok { columns := cols, csvOpen := true,
              fileContents := [(["t", "sync_t", "time"] ++ cols).map Val.str] })
    ∧ ((write_data sv data false).fileContents =
        sv.fileContents ++ [(["t", "sync_t", "time"] ++ sv.columns).map (fun h => rowGet data h)])
    ∧ (∀ h, rowHasKey data h = false → rowGet data h = .str "") := by
  refine ⟨rfl, ?_, ?_, ?_⟩
  · simp [start_writing, mkSaver, csvHeaders]
  · simp [write_data, ho, serializeRow, csvHeaders]
  · intro h hh
    exact rowGet_absent data h hh

/-- Witness for c5_header_and_serialization at a concrete saver and row:
declared column V, a row carrying V and an undeclared extra key. -/
theorem c5_header_and_serialization_witness :
    (ExperimentDataSaver.mk ["V"] true []).csvOpen = true
    ∧ ((write_data (ExperimentDataSaver.mk ["V"] true [])
          [("V", Val.num 1), ("extra", Val.str "x")] false).fileContents =
        [] ++ [(["t", "sync_t", "time"] ++ ["V"]).map
          (fun h => rowGet [("V", Val.num 1), ("extra", Val.str "x")] h)]) := by
  refine ⟨rfl, ?_⟩
  exact (c5_header_and_serialization ["V"] [("V", Val.num 1), ("extra", Val.str "x")]
    (ExperimentDataSaver.mk ["V"] true []) rfl).2.2.1

/-! ## Claim C8 (confirmed) -/

/-- Claim C8 (confirmed): when the try block of the lifecycle ends with an
exception e from setup or from step production (anything the except
Exception clause catches, so not a cancellation), e is stored so that
get_last_error returns it and the status transitions to ERROR; the
lifecycle returns normally (with cleanup itself not raising, nothing
escapes the coroutine), so nothing is ever re-raised into the caller's or
consumer's thread. -/
theorem c8_error_captured_not_reraised (inp : LifecycleInput) (e : Exc)
    (hout : bodyOutcome inp = .raised e) (hclean : inp.cleanupFault = none) :
    get_last_error (run_lifecycle inp).state = some e
    ∧ (run_lifecycle inp).state.status = .ERROR
    ∧ (run_lifecycle inp).escaped = none := by
  have hpost : postExceptState inp =
      { runBodyState inp with last_error := some e, status := .ERROR } := by
    unfold postExceptState
    rw [hout]
  unfold run_lifecycle
  rw [hclean, hpost]
  simp [get_last_error]

/-- Witness for c8_error_captured_not_reraised: a run whose setup raises
userError 3. -/
theorem c8_error_captured_not_reraised_witness :
    bodyOutcome (LifecycleInput.mk false 0 none (some (Exc.userError 3)) [] none false none) =
      BodyOutcome.raised (Exc.userError 3)
    ∧ get_last_error (run_lifecycle
        (LifecycleInput.mk false 0 none (some (Exc.userError 3)) [] none false none)).state =
      some (Exc.userError 3) := by
  refine ⟨by decide, ?_⟩
  exact (c8_error_captured_not_reraised
    (LifecycleInput.mk false 0 none (some (Exc.userError 3)) [] none false none)
    (Exc.userError 3) (by decide) rfl).1

/-! ## Clean-completion lemmas for the lifecycle -/

theorem runSteps_append (evs1 evs2 : List RunEvent) (s : RunState) :
    runSteps (evs1 ++ evs2) s = runSteps evs2 (runSteps evs1 s) := by
  simp [runSteps, List.foldl_append]

theorem bodyOutcome_not_raised (inp : LifecycleInput)
    (hsetup : inp.setupFault = none) (hsteps : inp.stepsFault = none)
    (hraised : (runSteps inp.events (initialRunState inp)).raised = none) :
    bodyOutcome inp = .ok ∨ bodyOutcome inp = .cancelled := by
  unfold bodyOutcome
  rw [hsetup]
  simp only [hraised, hsteps]
  rcases inp.cancelled with _ | _ <;> simp

/-- When setup succeeds, the loop neither raised nor was a generator fault
pending, and cleanup returns, the lifecycle finalizes: the body state is
kept except that the saver is released and the status (necessarily RUNNING
or STOPPING, hence not ERROR) becomes FINISHED; the file keeps what the
body wrote; nothing escapes. -/
theorem run_lifecycle_clean (inp : LifecycleInput)
    (hsetup : inp.setupFault = none) (hsteps : inp.stepsFault = none)
    (hclean : inp.cleanupFault = none)
    (hraised : (runSteps inp.events (initialRunState inp)).raised = none) :
    (run_lifecycle inp).state =
      { runSteps inp.events (initialRunState inp) with
        data_saver := none,
        status := .FINISHED }
    ∧ (run_lifecycle inp).file =
        (match (runSteps inp.events (initialRunState inp)).data_saver with
         | some sv => sv.fileContents
         | none => [])
    ∧ (run_lifecycle inp).escaped = none := by
  have hbody : runBodyState inp = runSteps inp.events (initialRunState inp) := by
    unfold runBodyState
    rw [hsetup]
  have hpost : postExceptState inp = runSteps inp.events (initialRunState inp) := by
    unfold postExceptState
    rcases bodyOutcome_not_raised inp hsetup hsteps hraised with h | h <;> rw [h, hbody]
  have hstatus : ¬((runSteps inp.events (initialRunState inp)).status = ExperimentStatus.ERROR) := by
    rcases runSteps_status_cases inp.events (initialRunState inp) (Or.inl rfl) with h | h <;>
      simp [h]
  unfold run_lifecycle
  rw [hclean, hpost]
  refine ⟨?_, rfl, rfl⟩
  simp only [ne_eq]
  rw [if_pos hstatus]

/-! ## Claim C1 (corrected) -/

/-- Claim C1, original form, is FALSE on the code: a non-debug run whose
single produced row hits a failing underlying csv write (writeFault =
true, modelling csv_writer.writerow or flush raising) does NOT end in
ERROR.  ExperimentDataSaver.write_data catches every exception of its own
body and only logs it, so nothing reaches the re-raise in _run_steps: the
run ends FINISHED with no recorded error, the row is silently missing from
the file (only the header remains) while it was still enqueued to the
consumer. -/
theorem c1_counterexample :
    (run_lifecycle (LifecycleInput.mk false 0
        (some (ExperimentDataSaver.mk ["V"] true
          [[Val.str "t", Val.str "sync_t", Val.str "time", Val.str "V"]]))
        none [RunEvent.yield 5 "w" [("V", Val.num 1)] true] none false none)).state.status =
      ExperimentStatus.FINISHED
    ∧ (run_lifecycle (LifecycleInput.mk false 0
        (some (ExperimentDataSaver.mk ["V"] true
          [[Val.str "t", Val.str "sync_t", Val.str "time", Val.str "V"]]))
        none [RunEvent.yield 5 "w" [("V", Val.num 1)] true] none false none)).state.last_error =
      none
    ∧ (run_lifecycle (LifecycleInput.mk false 0
        (some (ExperimentDataSaver.mk ["V"] true
          [[Val.str "t", Val.str "sync_t", Val.str "time", Val.str "V"]]))
        none [RunEvent.yield 5 "w" [("V", Val.num 1)] true] none false none)).file =
      [[Val.str "t", Val.str "sync_t", Val.str "time", Val.str "V"]]
    ∧ ((run_lifecycle (LifecycleInput.mk false 0
        (some (ExperimentDataSaver.mk ["V"] true
          [[Val.str "t", Val.str "sync_t", Val.str "time", Val.str "V"]]))
        none [RunEvent.yield 5 "w" [("V", Val.num 1)] true] none false none)).state.data_queue).length = 1 := by
  decide

/-- Claim C1 (amended): a failure of the Row Writer's underlying write is
caught and logged INSIDE write_data, so it never reaches the re-raise in
the step loop: the row is dropped from the file, the row is still enqueued
to the consumer, and the run is not promoted to ERROR - with no other
fault it ends FINISHED with no recorded error.  (The re-raise path in
_run_steps is fatal only when data_saver is missing altogether in
non-debug mode, where a fresh RuntimeError is raised.) -/
theorem c1_amended_write_failure_swallowed (sv : ExperimentDataSaver) (st t : ℤ)
    (wall : String) (row : Row) (ho : sv.csvOpen = true) :
    (run_lifecycle (LifecycleInput.mk false st (some sv) none
        [RunEvent.yield t wall row true] none false none)).state.status =
      ExperimentStatus.FINISHED
    ∧ (run_lifecycle (LifecycleInput.mk false st (some sv) none
        [RunEvent.yield t wall row true] none false none)).state.last_error = none
    ∧ (run_lifecycle (LifecycleInput.mk false st (some sv) none
        [RunEvent.yield t wall row true] none false none)).file = sv.fileContents
    ∧ (run_lifecycle (LifecycleInput.mk false st (some sv) none
        [RunEvent.yield t wall row true] none false none)).state.data_queue =
      [stampRow row t wall st none]
    ∧ (run_lifecycle (LifecycleInput.mk false st (some sv) none
        [RunEvent.yield t wall row true] none false none)).escaped = none := by
  have hstep : runSteps [RunEvent.yield t wall row true]
      (initialRunState (LifecycleInput.mk false st (some sv) none
        [RunEvent.yield t wall row true] none false none)) =
      RunState.mk .RUNNING false none none st false
        [stampRow row t wall st none] (some sv) false none := by
    simp only [runSteps, List.foldl_cons, List.foldl_nil, stepEvent, initialRunState]
    simp [write_data, ho]
  have hraised : (runSteps [RunEvent.yield t wall row true]
      (initialRunState (LifecycleInput.mk false st (some sv) none
        [RunEvent.yield t wall row true] none false none))).raised = none := by
    rw [hstep]
  obtain ⟨hstate, hfile, hescaped⟩ := run_lifecycle_clean
    (LifecycleInput.mk false st (some sv) none
      [RunEvent.yield t wall row true] none false none) rfl rfl rfl hraised
  rw [hstep] at hstate hfile
  refine ⟨?_, ?_, ?_, ?_, hescaped⟩
  · rw [hstate]
  · rw [hstate]
  · rw [hfile]
  · rw [hstate]

/-- Witness for c1_amended_write_failure_swallowed at a concrete open
saver holding only its header row. -/
theorem c1_amended_write_failure_swallowed_witness :
    (ExperimentDataSaver.mk ["V"] true
        [[Val.str "t", Val.str "sync_t", Val.str "time", Val.str "V"]]).csvOpen = true
    ∧ (run_lifecycle (LifecycleInput.mk false 0
        (some (ExperimentDataSaver.mk ["V"] true
          [[Val.str "t", Val.str "sync_t", Val.str "time", Val.str "V"]]))
        none [RunEvent.yield 7 "w" [("V", Val.num 2)] true] none false none)).file =
      (ExperimentDataSaver.mk ["V"] true
        [[Val.str "t", Val.str "sync_t", Val.str "time", Val.str "V"]]).fileContents :=
  ⟨rfl, (c1_amended_write_failure_swallowed
    (ExperimentDataSaver.mk ["V"] true
      [[Val.str "t", Val.str "sync_t", Val.str "time", Val.str "V"]])
    0 7 "w" [("V", Val.num 2)] rfl).2.2.1⟩

/-! ## Claim C2 (corrected) -/

/-- Claim C2, original form, is FALSE on the code: a run whose teardown
(exp.cleanup) raises does NOT still end in its terminal status.  Here a
debug run completes its body normally, cleanup raises userError 7, and the
lifecycle ends with status still RUNNING - not FINISHED - because the
finally block of _run_lifecycle does not guard the await exp.cleanup()
call: the exception escapes the coroutine (into its never-read Future) and
skips both _cleanup_data_saving and the FINISHED transition. -/
theorem c2_counterexample :
    (run_lifecycle (LifecycleInput.mk true 0 none none [] none false
        (some (Exc.userError 7)))).state.status = ExperimentStatus.RUNNING
    ∧ (run_lifecycle (LifecycleInput.mk true 0 none none [] none false
        (some (Exc.userError 7)))).state.status ≠ ExperimentStatus.FINISHED
    ∧ (run_lifecycle (LifecycleInput.mk true 0 none none [] none false
        (some (Exc.userError 7)))).escaped = some (Exc.userError 7) := by
  decide

/-- Claim C2 (amended): when teardown raises, the exception is neither
caught nor logged by the lifecycle: it escapes the coroutine into its
never-read Future (so the caller's thread still never sees it), and it
DOES prevent persistence finalization and the terminal transition - the
engine state is left exactly as it was after the except clauses, with the
saver still attached and the status (RUNNING, STOPPING or ERROR, never
FINISHED) unchanged. -/
theorem c2_amended_teardown_exception_escapes (inp : LifecycleInput) (ex : Exc)
    (hclean : inp.cleanupFault = some ex) :
    (run_lifecycle inp).escaped = some ex
    ∧ (run_lifecycle inp).state = postExceptState inp
    ∧ (run_lifecycle inp).state.status ≠ ExperimentStatus.FINISHED := by
  have h : run_lifecycle inp =
      { state := postExceptState inp,
        escaped := some ex,
        file := match (postExceptState inp).data_saver with
          | some sv => sv.fileContents
          | none => [],
        trace := tracePrefixPhases inp ++ [Phase.teardown] } := by
    unfold run_lifecycle
    rw [hclean]
  rw [h]
  exact ⟨rfl, rfl, postExceptState_status_ne_finished inp⟩

/-- Witness for c2_amended_teardown_exception_escapes at a concrete
input. -/
theorem c2_amended_teardown_exception_escapes_witness :
    (run_lifecycle (LifecycleInput.mk true 0 none none [] none false
        (some (Exc.userError 9)))).escaped = some (Exc.userError 9)
    ∧ (run_lifecycle (LifecycleInput.mk true 0 none none [] none false
        (some (Exc.userError 9)))).state.status ≠ ExperimentStatus.FINISHED := by
  have h := c2_amended_teardown_exception_escapes
    (LifecycleInput.mk true 0 none none [] none false (some (Exc.userError 9)))
    (Exc.userError 9) rfl
  exact ⟨h.1, h.2.2⟩

/-! ## Claim C6 (corrected) -/

theorem postExceptState_queue (inp : LifecycleInput) :
    (postExceptState inp).data_queue = (runBodyState inp).data_queue := by
  unfold postExceptState
  rcases bodyOutcome inp with _ | _ | e <;> rfl

theorem run_lifecycle_queue (inp : LifecycleInput) :
    (run_lifecycle inp).state.data_queue = (runBodyState inp).data_queue := by
  unfold run_lifecycle
  cases hc : inp.cleanupFault with
  | none =>
    simp only [hc]
    split <;> exact postExceptState_queue inp
  | some ex =>
    simp only [hc]
    exact postExceptState_queue inp

/-- Claim C6, original form, is FALSE on the code: a sync() call made while
RUNNING at monotonic-clock reading 0 is indistinguishable from no sync at
all, because line 299 of service.py tests the last-sync value for Python
truthiness (if self._last_sync_time) rather than for presence: 0.0 is
falsy.  In this run, sync() is called at clock 0 and the next row is
produced at clock 5; the claim requires sync_t = 5 - 0, but the row
carries the sentinel -1. -/
theorem c6_counterexample :
    (run_lifecycle (LifecycleInput.mk true 0 none none
        [RunEvent.syncCall 0, RunEvent.yield 5 "w" [] false]
        none false none)).state.data_queue = [stampRow [] 5 "w" 0 (some 0)]
    ∧ rowGet (stampRow [] 5 "w" 0 (some 0)) "sync_t" = Val.num (-1)
    ∧ Val.num (-1) ≠ Val.num (5 - 0) := by
  decide

/-- Claim C6 (amended): if sync() is never invoked during a run, every
produced row carries the sentinel -1 in sync_t; and after a sync() call
while RUNNING at a NONZERO clock reading ts, every row produced later
(with no further sync) carries sync_t equal to its own production clock
minus ts.  A sync at clock reading exactly 0 is the one exception: the
engine's truthiness test treats it as no sync, so the sentinel -1 is used. -/
theorem c6_amended_sync_semantics (inp : LifecycleInput) (s : RunState)
    (evs : List RunEvent) (ts : ℤ)
    (h1 : ∀ e ∈ inp.events, e.isSync = false)
    (h2 : s.status = ExperimentStatus.RUNNING) (h3 : ts ≠ 0)
    (h4 : ∀ e ∈ evs, e.isSync = false) :
    (∀ r ∈ (run_lifecycle inp).state.data_queue, rowGet r "sync_t" = Val.num (-1))
    ∧ (∀ r ∈ (runSteps evs (stepEvent (RunEvent.syncCall ts) s)).data_queue,
        r ∈ s.data_queue ∨
        ∃ tr w d, r = stampRow d tr w s.start_time (some ts)
          ∧ rowGet r "sync_t" = Val.num (tr - ts)) := by
  constructor
  · intro r hr
    rw [run_lifecycle_queue inp] at hr
    unfold runBodyState at hr
    rcases hsf : inp.setupFault with _ | e
    · rw [hsf] at hr
      obtain ⟨hl, hst, hq⟩ := runSteps_noSync_queue inp.events (initialRunState inp) h1
      rcases hq r hr with habs | ⟨t, w, d, hrw⟩
      · simp [initialRunState] at habs
      · rw [hrw, stampRow_get_sync_t]
        rfl
    · rw [hsf] at hr
      simp [initialRunState] at hr
  · intro r hr
    have hsync : stepEvent (RunEvent.syncCall ts) s = { s with last_sync_time := some ts } := by
      simp [stepEvent, h2]
    rw [hsync] at hr
    obtain ⟨hl, hst, hq⟩ := runSteps_noSync_queue evs { s with last_sync_time := some ts } h4
    rcases hq r hr with hold | ⟨t, w, d, hrw⟩
    · left
      exact hold
    · right
      refine ⟨t, w, d, hrw, ?_⟩
      rw [hrw, stampRow_get_sync_t]
      simp [sync_t_value, h3]

/-- Witness for c6_amended_sync_semantics: a debug run producing one row
with no sync, and a post-sync state at ts = 2. -/
theorem c6_amended_sync_semantics_witness :
    rowGet (stampRow [("V", Val.num 1)] 5 "w" 0 none) "sync_t" = Val.num (-1) := by
  have h := (c6_amended_sync_semantics
    (LifecycleInput.mk true 0 none none
      [RunEvent.yield 5 "w" [("V", Val.num 1)] false] none false none)
    (RunState.mk .RUNNING false none none 0 false [] none false none)
    [] 2 (by decide) rfl (by decide) (by decide)).1
  exact h (stampRow [("V", Val.num 1)] 5 "w" 0 none) (by decide)

/-! ## Claims C7 and C10 -/

theorem stepEvent_last_error (e : RunEvent) (s : RunState) :
    (stepEvent e s).last_error = s.last_error := by
  cases e with
  | yield t wall row wf =>
    simp only [stepEvent]
    split
    · rfl
    · split
      · rfl
      · split
        · rfl
        · split <;> rfl
  | syncCall t => simp only [stepEvent]; split <;> rfl
  | stopCall => simp only [stepEvent]; split <;> rfl
  | startCall d => rfl

theorem runSteps_last_error (evs : List RunEvent) (s : RunState) :
    (runSteps evs s).last_error = s.last_error := by
  induction evs generalizing s with
  | nil => rfl
  | cons e rest ih =>
    rw [runSteps_cons, ih, stepEvent_last_error]

/-- Claim C7 (confirmed): a run whose procedure produced the fault-free
rows ys when stop_experiment arrives (the stop call sets STOPPING and the
stop flag; whether the task cancellation is also delivered is arbitrary
here) ends with status FINISHED and no recorded error; whatever the
procedure still yields afterwards (evs2) is discarded: the queue holds
exactly the pre-stop rows and the file exactly their serializations -
nothing after the stop is persisted. -/
theorem c7_stop_finishes_cleanly (ys : List YieldIn) (evs2 : List RunEvent)
    (sv : ExperimentDataSaver) (st : ℤ) (cancelled : Bool)
    (ho : sv.csvOpen = true) (hwf : ∀ y ∈ ys, y.writeFault = false) :
    (run_lifecycle (LifecycleInput.mk false st (some sv) none
        (ys.map YieldIn.toEvent ++ RunEvent.stopCall :: evs2)
        none cancelled none)).state.status = ExperimentStatus.FINISHED
    ∧ (run_lifecycle (LifecycleInput.mk false st (some sv) none
        (ys.map YieldIn.toEvent ++ RunEvent.stopCall :: evs2)
        none cancelled none)).state.data_queue = ys.map (stampOf st none)
    ∧ (run_lifecycle (LifecycleInput.mk false st (some sv) none
        (ys.map YieldIn.toEvent ++ RunEvent.stopCall :: evs2)
        none cancelled none)).file =
      sv.fileContents ++ ys.map (yieldSerialized sv.columns st none)
    ∧ (run_lifecycle (LifecycleInput.mk false st (some sv) none
        (ys.map YieldIn.toEvent ++ RunEvent.stopCall :: evs2)
        none cancelled none)).state.last_error = none
    ∧ (run_lifecycle (LifecycleInput.mk false st (some sv) none
        (ys.map YieldIn.toEvent ++ RunEvent.stopCall :: evs2)
        none cancelled none)).escaped = none := by
  have h1 : runSteps (ys.map YieldIn.toEvent)
      (initialRunState (LifecycleInput.mk false st (some sv) none
        (ys.map YieldIn.toEvent ++ RunEvent.stopCall :: evs2) none cancelled none)) =
      RunState.mk .RUNNING false none none st false
        (ys.map (stampOf st none))
        (some (ExperimentDataSaver.mk sv.columns sv.csvOpen
          (sv.fileContents ++ ys.map (yieldSerialized sv.columns st none))))
        false none := by
    rw [runSteps_yields ys _ sv rfl rfl rfl rfl rfl ho hwf]
    rfl
  have h2 : stepEvent RunEvent.stopCall
      (RunState.mk .RUNNING false none none st false
        (ys.map (stampOf st none))
        (some (ExperimentDataSaver.mk sv.columns sv.csvOpen
          (sv.fileContents ++ ys.map (yieldSerialized sv.columns st none))))
        false none) =
      RunState.mk .STOPPING false none none st true
        (ys.map (stampOf st none))
        (some (ExperimentDataSaver.mk sv.columns sv.csvOpen
          (sv.fileContents ++ ys.map (yieldSerialized sv.columns st none))))
        false none := rfl
  have hall : runSteps (ys.map YieldIn.toEvent ++ RunEvent.stopCall :: evs2)
      (initialRunState (LifecycleInput.mk false st (some sv) none
        (ys.map YieldIn.toEvent ++ RunEvent.stopCall :: evs2) none cancelled none)) =
      runSteps evs2
        (RunState.mk .STOPPING false none none st true
          (ys.map (stampOf st none))
          (some (ExperimentDataSaver.mk sv.columns sv.csvOpen
            (sv.fileContents ++ ys.map (yieldSerialized sv.columns st none))))
          false none) := by
    rw [runSteps_append, h1, runSteps_cons, h2]
  obtain ⟨hq, hsv', hst, hse, hra⟩ := runSteps_stopped evs2
    (RunState.mk .STOPPING false none none st true
      (ys.map (stampOf st none))
      (some (ExperimentDataSaver.mk sv.columns sv.csvOpen
        (sv.fileContents ++ ys.map (yieldSerialized sv.columns st none))))
      false none) rfl rfl
  have hraised : (runSteps (ys.map YieldIn.toEvent ++ RunEvent.stopCall :: evs2)
      (initialRunState (LifecycleInput.mk false st (some sv) none
        (ys.map YieldIn.toEvent ++ RunEvent.stopCall :: evs2) none cancelled none))).raised =
      none := by
    rw [hall, hra]
  obtain ⟨hstate, hfile, hescaped⟩ := run_lifecycle_clean
    (LifecycleInput.mk false st (some sv) none
      (ys.map YieldIn.toEvent ++ RunEvent.stopCall :: evs2) none cancelled none)
    rfl rfl rfl hraised
  refine ⟨?_, ?_, ?_, ?_, hescaped⟩
  · rw [hstate]
  · rw [hstate]
    show (runSteps (ys.map YieldIn.toEvent ++ RunEvent.stopCall :: evs2)
      (initialRunState (LifecycleInput.mk false st (some sv) none
        (ys.map YieldIn.toEvent ++ RunEvent.stopCall :: evs2) none cancelled none))).data_queue = _
    rw [hall, hq]
  · rw [hall, hsv'] at hfile
    exact hfile
  · rw [hstate]
    show (runSteps (ys.map YieldIn.toEvent ++ RunEvent.stopCall :: evs2)
      (initialRunState (LifecycleInput.mk false st (some sv) none
        (ys.map YieldIn.toEvent ++ RunEvent.stopCall :: evs2) none cancelled none))).last_error = _
    rw [hall, runSteps_last_error]

/-- Witness for c7_stop_finishes_cleanly: one pre-stop row, one post-stop
yield that is discarded. -/
theorem c7_stop_finishes_cleanly_witness :
    (run_lifecycle (LifecycleInput.mk false 0
        (some (ExperimentDataSaver.mk ["V"] true [])) none
        ([YieldIn.mk 3 "a" [("V", Val.num 1)] false].map YieldIn.toEvent ++
          RunEvent.stopCall :: [RunEvent.yield 9 "c" [] false])
        none false none)).state.status = ExperimentStatus.FINISHED
    ∧ (run_lifecycle (LifecycleInput.mk false 0
        (some (ExperimentDataSaver.mk ["V"] true [])) none
        ([YieldIn.mk 3 "a" [("V", Val.num 1)] false].map YieldIn.toEvent ++
          RunEvent.stopCall :: [RunEvent.yield 9 "c" [] false])
        none false none)).file =
      [] ++ [YieldIn.mk 3 "a" [("V", Val.num 1)] false].map (yieldSerialized ["V"] 0 none) := by
  have h := c7_stop_finishes_cleanly
    [YieldIn.mk 3 "a" [("V", Val.num 1)] false]
    [RunEvent.yield 9 "c" [] false]
    (ExperimentDataSaver.mk ["V"] true []) 0 false rfl (by decide)
  exact ⟨h.1, h.2.2.1⟩

/-- Claim C10 (confirmed): in a run with no stop and no faults, the
consumer queue receives exactly the stamped rows in production order, the
file receives exactly their serializations in the same order, the run
finishes FINISHED, and each row's derived fields are computed from the
clocks read at its own production instant: t is that row's monotonic
reading minus the start reading, time is that row's wall-clock string, and
sync_t is the sentinel (no sync here). -/
theorem c10_ordering_and_timestamps (ys : List YieldIn) (sv : ExperimentDataSaver)
    (st : ℤ) (ho : sv.csvOpen = true) (hwf : ∀ y ∈ ys, y.writeFault = false) :
    (run_lifecycle (LifecycleInput.mk false st (some sv) none
        (ys.map YieldIn.toEvent) none false none)).state.data_queue =
      ys.map (stampOf st none)
    ∧ (run_lifecycle (LifecycleInput.mk false st (some sv) none
        (ys.map YieldIn.toEvent) none false none)).file =
      sv.fileContents ++ ys.map (yieldSerialized sv.columns st none)
    ∧ (run_lifecycle (LifecycleInput.mk false st (some sv) none
        (ys.map YieldIn.toEvent) none false none)).state.status =
      ExperimentStatus.FINISHED
    ∧ (run_lifecycle (LifecycleInput.mk false st (some sv) none
        (ys.map YieldIn.toEvent) none false none)).escaped = none
    ∧ ∀ y ∈ ys, rowGet (stampOf st none y) "t" = Val.num (y.t - st)
        ∧ rowGet (stampOf st none y) "time" = Val.str y.wall
        ∧ rowGet (stampOf st none y) "sync_t" = Val.num (-1) := by
  have h1 : runSteps (ys.map YieldIn.toEvent)
      (initialRunState (LifecycleInput.mk false st (some sv) none
        (ys.map YieldIn.toEvent) none false none)) =
      RunState.mk .RUNNING false none none st false
        (ys.map (stampOf st none))
        (some (ExperimentDataSaver.mk sv.columns sv.csvOpen
          (sv.fileContents ++ ys.map (yieldSerialized sv.columns st none))))
        false none := by
    rw [runSteps_yields ys _ sv rfl rfl rfl rfl rfl ho hwf]
    rfl
  have hraised : (runSteps (ys.map YieldIn.toEvent)
      (initialRunState (LifecycleInput.mk false st (some sv) none
        (ys.map YieldIn.toEvent) none false none))).raised = none := by
    rw [h1]
  obtain ⟨hstate, hfile, hescaped⟩ := run_lifecycle_clean
    (LifecycleInput.mk false st (some sv) none
      (ys.map YieldIn.toEvent) none false none) rfl rfl rfl hraised
  refine ⟨?_, ?_, ?_, hescaped, ?_⟩
  · rw [hstate]
    show (runSteps (ys.map YieldIn.toEvent)
      (initialRunState (LifecycleInput.mk false st (some sv) none
        (ys.map YieldIn.toEvent) none false none))).data_queue = _
    rw [h1]
  · rw [h1] at hfile
    exact hfile
  · rw [hstate]
  · intro y hy
    exact ⟨stampRow_get_t y.row y.t y.wall st none,
      stampRow_get_time y.row y.t y.wall st none,
      stampRow_get_sync_t y.row y.t y.wall st none⟩

/-- Witness for c10_ordering_and_timestamps: two fault-free rows. -/
theorem c10_ordering_and_timestamps_witness :
    (run_lifecycle (LifecycleInput.mk false 0
        (some (ExperimentDataSaver.mk ["V"] true [])) none
        ([YieldIn.mk 3 "a" [("V", Val.num 1)] false,
          YieldIn.mk 5 "b" [("V", Val.num 2)] false].map YieldIn.toEvent)
        none false none)).state.data_queue =
      [YieldIn.mk 3 "a" [("V", Val.num 1)] false,
        YieldIn.mk 5 "b" [("V", Val.num 2)] false].map (stampOf 0 none)
    ∧ (run_lifecycle (LifecycleInput.mk false 0
        (some (ExperimentDataSaver.mk ["V"] true [])) none
        ([YieldIn.mk 3 "a" [("V", Val.num 1)] false,
          YieldIn.mk 5 "b" [("V", Val.num 2)] false].map YieldIn.toEvent)
        none false none)).state.status = ExperimentStatus.FINISHED := by
  have h := c10_ordering_and_timestamps
    [YieldIn.mk 3 "a" [("V", Val.num 1)] false,
      YieldIn.mk 5 "b" [("V", Val.num 2)] false]
    (ExperimentDataSaver.mk ["V"] true []) 0 rfl (by decide)
  exact ⟨h.1, h.2.2.1⟩
